import Mathlib

/-!
Verification development for the retrieval engine of the `mock-api-realtime`
repository (`src/rag.py`, class `PGVectorStore`).

The Python code is shallowly embedded: pure query-building code becomes Lean
functions on explicit argument structures; the stateful/IO parts (embedding
provider, database cursor, spaCy entity extraction) are modelled by passing
each collaborator's outcome for the call as an explicit `Except` argument and
returning the observable outcome of the call.  SQL strings are reproduced
verbatim (modulo the indentation of Python's triple-quoted literals).
-/

/-! ## Filter compiler (`PGVectorStore.build_filter_query`, src/rag.py lines 65-79) -/

/-- A single-quote character (U+0027).  The Python source builds SQL fragments
with f-strings of the form `cmetadata ->> '{key}' = '{value}'`; this constant
stands for the quote character those f-strings insert around keys and values. -/
def squote : String := String.singleton (Char.ofNat 39)

/-- Python f-string quoting as used in `build_filter_query`: wrap a string in
single quotes. -/
def pyQuote (s : String) : String := squote ++ s ++ squote

/-- A scalar element of a list-valued metadata filter (the Python code calls
`str(v)` on each element before joining). -/
inductive FilterScalar where
  | int : Int → FilterScalar
  | str : String → FilterScalar
deriving DecidableEq

/-- Python `str()` of a scalar filter element (src/rag.py line 76). -/
def FilterScalar.pyStr : FilterScalar → String
  | .int n => toString n
  | .str s => s

/-- A metadata filter value.  Mirrors the `isinstance` branches of
`build_filter_query` (src/rag.py lines 71-77): numeric, string, or list
(membership). -/
inductive FilterVal where
  | int : Int → FilterVal
  | str : String → FilterVal
  | list : List FilterScalar → FilterVal
deriving DecidableEq

/-- One compiled condition of the metadata filter, from the `isinstance`
branches at src/rag.py lines 71-77.  Note that both the key and the runtime
value are interpolated directly into the SQL text by the Python f-strings. -/
def filterCondition : String × FilterVal → String
  | (key, FilterVal.int n) =>
      ("cmetadata ->> ") ++ pyQuote key ++ (" = ") ++ pyQuote (toString n)
  | (key, FilterVal.str s) =>
      ("cmetadata ->> ") ++ pyQuote key ++ (" = ") ++ pyQuote s
  | (key, FilterVal.list vs) =>
      ("cmetadata ->> ") ++ pyQuote key ++ (" IN (") ++
        pyQuote (String.intercalate (squote ++ (",") ++ squote) (vs.map FilterScalar.pyStr)) ++ (")")

/-- `PGVectorStore.build_filter_query` (src/rag.py lines 65-79): an empty
mapping compiles to the empty string, otherwise the conditions are joined
with `" AND "`.  The filter dictionary is modelled as an association list in
insertion order (Python dict iteration order). -/
def build_filter_query (filter_dict : List (String × FilterVal)) : String :=
  if filter_dict.isEmpty then ("") else
    String.intercalate (" AND ") (filter_dict.map filterCondition)

/-- C1: the claim states that for identifier-only field names the compiled
predicate text never contains the runtime content of a filter value, and that
two calls with the same field names but different values yield identical text.
The code violates this: `build_filter_query` interpolates the value itself
into the SQL text, so the compiled text for field `type` with value `a`
literally contains `a`, and changing the value to `b` changes the text. -/
theorem build_filter_query_embeds_value :
    build_filter_query [(("type"), FilterVal.str ("a"))]
        = ("cmetadata ->> ") ++ pyQuote ("type") ++ (" = ") ++ pyQuote ("a")
    ∧ build_filter_query [(("type"), FilterVal.str ("a"))]
        ≠ build_filter_query [(("type"), FilterVal.str ("b"))] := by
  constructor
  · rfl
  · decide

/-! ## Structured inventory query builder
(`PGVectorStore.search_vehicle_inventory`, src/rag.py lines 163-431) -/

/-- The optional filter arguments of `search_vehicle_inventory`
(src/rag.py lines 163-188), all defaulting to `None` exactly as in the Python
signature.  Python `float` prices are embedded as rationals. -/
structure InventoryQueryArgs where
  vin : Option String := none
  stock_number : Option String := none
  vehicle_type : Option String := none
  year : Option Int := none
  make : Option String := none
  model : Option String := none
  trim : Option String := none
  style : Option String := none
  exterior_color : Option String := none
  interior_color : Option String := none
  certified : Option Bool := none
  min_price : Option ℚ := none
  max_price : Option ℚ := none
  fuel_type : Option String := none
  transmission : Option String := none
  drive_type : Option String := none
  doors : Option Int := none
  engine_type : Option String := none
  features : Option String := none
  packages : Option String := none
deriving DecidableEq

/-- Python truthiness of an optional string argument: `if s:` is taken when
`s` is neither `None` nor the empty string. -/
def pyTruthyStr : Option String → Bool
  | none => false
  | some s => !(s == (""))

/-- Python truthiness of an optional integer argument: `if n:` is taken when
`n` is neither `None` nor `0`. -/
def pyTruthyInt : Option Int → Bool
  | none => false
  | some n => !(n == 0)

/-- Python truthiness of an optional numeric (float) argument: `if x:` is
taken when `x` is neither `None` nor `0`. -/
def pyTruthyRat : Option ℚ → Bool
  | none => false
  | some x => !(x == 0)

/-- A value bound into the parameterized query through psycopg2's
`%(name)s` placeholders. -/
inductive SqlParam where
  | str : String → SqlParam
  | int : Int → SqlParam
  | rat : ℚ → SqlParam
  | bool : Bool → SqlParam
  | null : SqlParam
deriving DecidableEq

/-- The fixed head of the inventory query (src/rag.py lines 223-291), up to
and including `WHERE TRUE`; the triple-quoted literal's indentation is
elided. -/
def inventoryQueryHead : String :=
  "WITH filtered AS (
SELECT
vin, stock_number, type, year, make, model, trim, style, model_number,
mileage, exterior_color, exterior_color_code, interior_color,
interior_color_code, date_in_stock, certified, msrp, invoice, book_value,
selling_price, engine_cylinders, engine_displacement, drive_type, fuel_type,
transmission, wheelbase, body, doors, description, options, kbb_retail,
kbb_valuation_date, kbb_zip_code, added_equipment_pricing,
dealer_processing_fee, location, vehicle_status, engine_type, drive_line,
transmission_secondary, city_fuel_economy, highway_fuel_economy, features,
packages,
(
COALESCE(LENGTH(vin), 0) +
COALESCE(LENGTH(stock_number), 0) +
COALESCE(LENGTH(type), 0) +
COALESCE(LENGTH(make), 0) +
COALESCE(LENGTH(model), 0) +
COALESCE(LENGTH(trim), 0) +
COALESCE(LENGTH(style), 0) +
COALESCE(LENGTH(exterior_color), 0) +
COALESCE(LENGTH(interior_color), 0) +
COALESCE(LENGTH(fuel_type), 0) +
COALESCE(LENGTH(transmission), 0) +
COALESCE(LENGTH(drive_type), 0) +
COALESCE(LENGTH(engine_type), 0) +
COALESCE(LENGTH(features), 0) +
COALESCE(LENGTH(packages), 0) +
COALESCE(LENGTH(description), 0) +
COALESCE(LENGTH(options), 0)
) / 5 AS estimated_token_count
FROM demo_vehicle_inventory
WHERE TRUE"

/-- The fixed tail of the inventory query (src/rag.py lines 357-413): the
cumulative-token CTE over `date_in_stock ASC`, the final projection and the
budget cut `cumulative_tokens <= %(context_limit)s`. -/
def inventoryQueryTail : String :=
  "
)
, cumulative AS (
SELECT *,
SUM(estimated_token_count) OVER (ORDER BY date_in_stock ASC) AS cumulative_tokens
FROM filtered
)
SELECT
vin, stock_number, type, year, make, model, trim, style, model_number,
mileage, exterior_color, exterior_color_code, interior_color,
interior_color_code, date_in_stock, certified, msrp, invoice, book_value,
selling_price, engine_cylinders, engine_displacement, drive_type, fuel_type,
transmission, wheelbase, body, doors, description, options, kbb_retail,
kbb_valuation_date, kbb_zip_code, added_equipment_pricing,
dealer_processing_fee, location, vehicle_status, engine_type, drive_line,
transmission_secondary, city_fuel_economy, highway_fuel_economy, features,
packages
FROM cumulative
WHERE cumulative_tokens <= %(context_limit)s
ORDER BY date_in_stock ASC;"

/-- The SQL text built by `search_vehicle_inventory` (src/rag.py lines
223-413): the fixed head, then one fixed fragment per filter whose Python
truthiness test succeeds (`if vin:`, `if year:`, ...; only `certified` is
tested with `is not None`), then the fixed tail. -/
def inventoryQueryText (a : InventoryQueryArgs) : String :=
  inventoryQueryHead
  ++ (if pyTruthyStr a.vin then (" AND vin = %(vin)s") else (""))
  ++ (if pyTruthyStr a.stock_number then (" AND stock_number ILIKE %(stock_number)s") else (""))
  ++ (if pyTruthyStr a.vehicle_type then (" AND type ILIKE %(vehicle_type)s") else (""))
  ++ (if pyTruthyInt a.year then (" AND year = %(year)s") else (""))
  ++ (if pyTruthyStr a.make then (" AND make ILIKE %(make)s") else (""))
  ++ (if pyTruthyStr a.model then (" AND model ILIKE %(model)s") else (""))
  ++ (if pyTruthyStr a.trim then (" AND trim ILIKE %(trim)s") else (""))
  ++ (if pyTruthyStr a.style then (" AND style ILIKE %(style)s") else (""))
  ++ (if pyTruthyStr a.exterior_color then (" AND exterior_color ILIKE %(exterior_color)s") else (""))
  ++ (if pyTruthyStr a.interior_color then (" AND interior_color ILIKE %(interior_color)s") else (""))
  ++ (if a.certified.isSome then (" AND certified = %(certified)s") else (""))
  ++ (if pyTruthyRat a.min_price then (" AND selling_price >= %(min_price)s") else (""))
  ++ (if pyTruthyRat a.max_price then (" AND selling_price <= %(max_price)s") else (""))
  ++ (if pyTruthyStr a.fuel_type then (" AND fuel_type ILIKE %(fuel_type)s") else (""))
  ++ (if pyTruthyStr a.transmission then (" AND transmission ILIKE %(transmission)s") else (""))
  ++ (if pyTruthyStr a.drive_type then (" AND drive_type ILIKE %(drive_type)s") else (""))
  ++ (if pyTruthyInt a.doors then (" AND doors = %(doors)s") else (""))
  ++ (if pyTruthyStr a.engine_type then (" AND engine_type ILIKE %(engine_type)s") else (""))
  ++ (if pyTruthyStr a.features then (" AND features ILIKE %(features)s") else (""))
  ++ (if pyTruthyStr a.packages then (" AND packages ILIKE %(packages)s") else (""))
  ++ inventoryQueryTail

/-- Python `f"%{s}%"`: the substring wrapping applied to every ILIKE
parameter value before binding. -/
def pctWrap (s : String) : String := ("%") ++ s ++ ("%")

/-- The parameter dictionary bound by `cur.execute(query, params)`
(src/rag.py lines 293-355 and 415): an entry is added exactly when the
corresponding truthiness test succeeds, plus `context_limit`, which is always
added (even when the Python argument is `None`). -/
def inventoryParams (a : InventoryQueryArgs) (context_limit : Option Int) :
    List (String × SqlParam) :=
  (if pyTruthyStr a.vin then [(("vin"), SqlParam.str (a.vin.getD ("")))] else [])
  ++ (if pyTruthyStr a.stock_number then [(("stock_number"), SqlParam.str (pctWrap (a.stock_number.getD (""))))] else [])
  ++ (if pyTruthyStr a.vehicle_type then [(("vehicle_type"), SqlParam.str (pctWrap (a.vehicle_type.getD (""))))] else [])
  ++ (if pyTruthyInt a.year then [(("year"), SqlParam.int (a.year.getD 0))] else [])
  ++ (if pyTruthyStr a.make then [(("make"), SqlParam.str (pctWrap (a.make.getD (""))))] else [])
  ++ (if pyTruthyStr a.model then [(("model"), SqlParam.str (pctWrap (a.model.getD (""))))] else [])
  ++ (if pyTruthyStr a.trim then [(("trim"), SqlParam.str (pctWrap (a.trim.getD (""))))] else [])
  ++ (if pyTruthyStr a.style then [(("style"), SqlParam.str (pctWrap (a.style.getD (""))))] else [])
  ++ (if pyTruthyStr a.exterior_color then [(("exterior_color"), SqlParam.str (pctWrap (a.exterior_color.getD (""))))] else [])
  ++ (if pyTruthyStr a.interior_color then [(("interior_color"), SqlParam.str (pctWrap (a.interior_color.getD (""))))] else [])
  ++ (if a.certified.isSome then [(("certified"), SqlParam.bool (a.certified.getD false))] else [])
  ++ (if pyTruthyRat a.min_price then [(("min_price"), SqlParam.rat (a.min_price.getD 0))] else [])
  ++ (if pyTruthyRat a.max_price then [(("max_price"), SqlParam.rat (a.max_price.getD 0))] else [])
  ++ (if pyTruthyStr a.fuel_type then [(("fuel_type"), SqlParam.str (pctWrap (a.fuel_type.getD (""))))] else [])
  ++ (if pyTruthyStr a.transmission then [(("transmission"), SqlParam.str (pctWrap (a.transmission.getD (""))))] else [])
  ++ (if pyTruthyStr a.drive_type then [(("drive_type"), SqlParam.str (pctWrap (a.drive_type.getD (""))))] else [])
  ++ (if pyTruthyInt a.doors then [(("doors"), SqlParam.int (a.doors.getD 0))] else [])
  ++ (if pyTruthyStr a.engine_type then [(("engine_type"), SqlParam.str (pctWrap (a.engine_type.getD (""))))] else [])
  ++ (if pyTruthyStr a.features then [(("features"), SqlParam.str (pctWrap (a.features.getD (""))))] else [])
  ++ (if pyTruthyStr a.packages then [(("packages"), SqlParam.str (pctWrap (a.packages.getD (""))))] else [])
  ++ [(("context_limit"), match context_limit with
        | some n => SqlParam.int n
        | none => SqlParam.null)]

/-- The compiled call: query text together with its bound parameters. -/
def inventoryQuery (a : InventoryQueryArgs) (context_limit : Option Int) :
    String × List (String × SqlParam) :=
  (inventoryQueryText a, inventoryParams a context_limit)

/-- Which filter arguments are *active*, i.e. actually contribute a
predicate: for strings and numbers this is Python truthiness, for
`certified` it is `is not None`. -/
def activeFields (a : InventoryQueryArgs) : List Bool :=
  [pyTruthyStr a.vin, pyTruthyStr a.stock_number, pyTruthyStr a.vehicle_type,
   pyTruthyInt a.year, pyTruthyStr a.make, pyTruthyStr a.model,
   pyTruthyStr a.trim, pyTruthyStr a.style, pyTruthyStr a.exterior_color,
   pyTruthyStr a.interior_color, a.certified.isSome, pyTruthyRat a.min_price,
   pyTruthyRat a.max_price, pyTruthyStr a.fuel_type,
   pyTruthyStr a.transmission, pyTruthyStr a.drive_type, pyTruthyInt a.doors,
   pyTruthyStr a.engine_type, pyTruthyStr a.features, pyTruthyStr a.packages]

/-- Which filter arguments are *present*, i.e. passed with a non-`None`
value (regardless of truthiness). -/
def presentFields (a : InventoryQueryArgs) : List Bool :=
  [a.vin.isSome, a.stock_number.isSome, a.vehicle_type.isSome, a.year.isSome,
   a.make.isSome, a.model.isSome, a.trim.isSome, a.style.isSome,
   a.exterior_color.isSome, a.interior_color.isSome, a.certified.isSome,
   a.min_price.isSome, a.max_price.isSome, a.fuel_type.isSome,
   a.transmission.isSome, a.drive_type.isSome, a.doors.isSome,
   a.engine_type.isSome, a.features.isSome, a.packages.isSome]

/-- C2 counterexample: two calls that pass the same set of parameters
(`year` present in both) with different values (`2020` vs `0`) compile to
different query texts, because presence is tested with Python truthiness
(`if year:`), so the text is not a function of the set of present parameter
names alone. -/
theorem inventory_query_text_depends_on_values :
    presentFields { year := some 2020 } = presentFields { year := some 0 }
    ∧ inventoryQueryText { year := some 2020 }
        ≠ inventoryQueryText { year := some 0 } := by
  constructor
  · rfl
  · intro h
    have hlen := congrArg String.length h
    have h20 : (" AND year = %(year)s").length = 20 := rfl
    simp only [inventoryQueryText] at hlen
    simp [pyTruthyStr, pyTruthyInt, pyTruthyRat, String.length_append,
      h20] at hlen

/-- C2 (amended): the compiled query text is a deterministic function of the
set of *active* filters — those whose value is truthy (non-`None` and not
`0`/empty; `certified` is active whenever non-`None`).  Two calls with the
same activity pattern compile to identical query text, whatever the values;
the values themselves are carried only in the bound-parameter list. -/
theorem inventory_query_text_function_of_active_filters
    (a b : InventoryQueryArgs) (h : activeFields a = activeFields b) :
    inventoryQueryText a = inventoryQueryText b := by
  simp only [activeFields, List.cons.injEq, and_true] at h
  obtain ⟨h1, h2, h3, h4, h5, h6, h7, h8, h9, h10, h11, h12, h13, h14, h15,
    h16, h17, h18, h19, h20⟩ := h
  simp only [inventoryQueryText, h1, h2, h3, h4, h5, h6, h7, h8, h9, h10,
    h11, h12, h13, h14, h15, h16, h17, h18, h19, h20]

/-- Witness for the amended C2 theorem at a concrete pair of calls: `make`
set to two different values yields the same activity pattern and hence the
same compiled query text. -/
theorem inventory_query_text_function_of_active_filters_witness :
    activeFields { make := some ("Toyota") }
        = activeFields { make := some ("Honda") }
    ∧ inventoryQueryText { make := some ("Toyota") }
        = inventoryQueryText { make := some ("Honda") } :=
  ⟨by decide, inventory_query_text_function_of_active_filters _ _ (by decide)⟩

/-- C10: a numeric filter equal to zero (`year`, `doors`, `min_price`,
`max_price`) or an empty-string text filter fails the Python truthiness test
and contributes neither a predicate nor a bound parameter — the compiled
call is identical to one where the argument is absent.  `certified` alone is
tested with `is not None`, so `certified := some false` really changes the
compiled call. -/
theorem falsy_filters_inactive_certified_false_active
    (a : InventoryQueryArgs) (cl : Option Int) :
    inventoryQuery { a with year := some 0 } cl
        = inventoryQuery { a with year := none } cl
    ∧ inventoryQuery { a with doors := some 0 } cl
        = inventoryQuery { a with doors := none } cl
    ∧ inventoryQuery { a with min_price := some 0 } cl
        = inventoryQuery { a with min_price := none } cl
    ∧ inventoryQuery { a with max_price := some 0 } cl
        = inventoryQuery { a with max_price := none } cl
    ∧ inventoryQuery { a with vin := some ("") } cl
        = inventoryQuery { a with vin := none } cl
    ∧ inventoryQuery { a with stock_number := some ("") } cl
        = inventoryQuery { a with stock_number := none } cl
    ∧ inventoryQuery { a with vehicle_type := some ("") } cl
        = inventoryQuery { a with vehicle_type := none } cl
    ∧ inventoryQuery { a with make := some ("") } cl
        = inventoryQuery { a with make := none } cl
    ∧ inventoryQuery { a with model := some ("") } cl
        = inventoryQuery { a with model := none } cl
    ∧ inventoryQuery { a with trim := some ("") } cl
        = inventoryQuery { a with trim := none } cl
    ∧ inventoryQuery { a with style := some ("") } cl
        = inventoryQuery { a with style := none } cl
    ∧ inventoryQuery { a with exterior_color := some ("") } cl
        = inventoryQuery { a with exterior_color := none } cl
    ∧ inventoryQuery { a with interior_color := some ("") } cl
        = inventoryQuery { a with interior_color := none } cl
    ∧ inventoryQuery { a with fuel_type := some ("") } cl
        = inventoryQuery { a with fuel_type := none } cl
    ∧ inventoryQuery { a with transmission := some ("") } cl
        = inventoryQuery { a with transmission := none } cl
    ∧ inventoryQuery { a with drive_type := some ("") } cl
        = inventoryQuery { a with drive_type := none } cl
    ∧ inventoryQuery { a with engine_type := some ("") } cl
        = inventoryQuery { a with engine_type := none } cl
    ∧ inventoryQuery { a with features := some ("") } cl
        = inventoryQuery { a with features := none } cl
    ∧ inventoryQuery { a with packages := some ("") } cl
        = inventoryQuery { a with packages := none } cl
    ∧ inventoryQuery { a with certified := some false } cl
        ≠ inventoryQuery { a with certified := none } cl := by
  refine ⟨?_, ?_, ?_, ?_, ?_, ?_, ?_, ?_, ?_, ?_, ?_, ?_, ?_, ?_, ?_, ?_,
    ?_, ?_, ?_, ?_⟩ <;>
    simp [inventoryQuery, inventoryQueryText, inventoryParams,
      pyTruthyInt, pyTruthyStr, pyTruthyRat]

/-! ## Inventory rows and the token-budget window -/

/-- A row of `demo_vehicle_inventory`, restricted to the columns the query
filters on or measures: the seventeen textual columns of the
`estimated_token_count` sum (nullable, hence `Option String`; the column
`type` is called `vtype` here), the ordering key `date_in_stock`, and the
remaining columns compared by the dynamic predicates. -/
structure InventoryRow where
  date_in_stock : Int
  vin : Option String
  stock_number : Option String
  vtype : Option String
  year : Int
  make : Option String
  model : Option String
  trim : Option String
  style : Option String
  exterior_color : Option String
  interior_color : Option String
  certified : Bool
  selling_price : ℚ
  fuel_type : Option String
  transmission : Option String
  drive_type : Option String
  doors : Int
  engine_type : Option String
  features : Option String
  packages : Option String
  description : Option String
  options : Option String
deriving DecidableEq

/-- SQL `COALESCE(LENGTH(col), 0)` for a nullable text column. -/
def optLen : Option String → Nat
  | none => 0
  | some s => s.length

/-- The `estimated_token_count` column (src/rag.py lines 270-288): the sum of
the seventeen `COALESCE(LENGTH(...), 0)` terms, integer-divided by 5. -/
def estimated_token_count (r : InventoryRow) : Nat :=
  (optLen r.vin + optLen r.stock_number + optLen r.vtype + optLen r.make +
   optLen r.model + optLen r.trim + optLen r.style +
   optLen r.exterior_color + optLen r.interior_color + optLen r.fuel_type +
   optLen r.transmission + optLen r.drive_type + optLen r.engine_type +
   optLen r.features + optLen r.packages + optLen r.description +
   optLen r.options) / 5

/-- The `cumulative_tokens` value computed for row `r` of `rows` by
`SUM(estimated_token_count) OVER (ORDER BY date_in_stock ASC)`
(src/rag.py line 362).  With an `ORDER BY` and no explicit frame clause,
PostgreSQL uses the frame `RANGE UNBOUNDED PRECEDING .. CURRENT ROW`, which
sums over every row whose `date_in_stock` is at most that of the current
row — including all peer rows with an equal date.  `rows` is the table in
ascending `date_in_stock` order. -/
def cumulative_tokens (rows : List InventoryRow) (r : InventoryRow) : Nat :=
  ((rows.filter (fun s => decide (s.date_in_stock ≤ r.date_in_stock))).map
    estimated_token_count).sum

/-- The budget cut of the inventory query:
`WHERE cumulative_tokens <= %(context_limit)s ORDER BY date_in_stock ASC`
(src/rag.py lines 410-412), applied to rows listed in ascending
`date_in_stock` order. -/
def windowRows (rows : List InventoryRow) (limit : Int) : List InventoryRow :=
  rows.filter (fun r => decide ((cumulative_tokens rows r : Int) ≤ limit))

/-- Total estimated token count of a list of rows. -/
def tokSum (rows : List InventoryRow) : Nat :=
  (rows.map estimated_token_count).sum

/-- A row's own estimated cost is at most its cumulative count, since the
RANGE frame always includes the current row. -/
theorem est_le_cumulative {rows : List InventoryRow} {x : InventoryRow}
    (hx : x ∈ rows) :
    estimated_token_count x ≤ cumulative_tokens rows x := by
  apply List.single_le_sum (fun y _ => Nat.zero_le y)
  apply List.mem_map_of_mem
  exact List.mem_filter.mpr ⟨hx, by simp⟩

/-- Cumulative count of the head row when every later row has a strictly
larger date: only the head itself falls in its RANGE frame. -/
theorem cumulative_tokens_head {r : InventoryRow} {rs : List InventoryRow}
    (hlt : ∀ x ∈ rs, r.date_in_stock < x.date_in_stock) :
    cumulative_tokens (r :: rs) r = estimated_token_count r := by
  unfold cumulative_tokens
  rw [List.filter_cons_of_pos (by simp)]
  rw [List.filter_eq_nil_iff.mpr]
  · simp
  · intro x hx
    simpa using (hlt x hx).not_le

/-- Cumulative count of a later row over a cons cell: when the head's date
is at most the row's date, the head is in the row's RANGE frame. -/
theorem cumulative_tokens_cons {r x : InventoryRow} {rs : List InventoryRow}
    (hle : r.date_in_stock ≤ x.date_in_stock) :
    cumulative_tokens (r :: rs) x
      = estimated_token_count r + cumulative_tokens rs x := by
  unfold cumulative_tokens
  rw [List.filter_cons_of_pos (by simpa using hle)]
  simp

/-- Total cost of a cons cell. -/
theorem tokSum_cons (r : InventoryRow) (l : List InventoryRow) :
    tokSum (r :: l) = estimated_token_count r + tokSum l := by
  simp [tokSum]

/-- C3 (amended): on rows listed in strictly increasing `date_in_stock`
order (no tied dates) and a nonnegative budget, the budget cut returns
exactly the maximal prefix whose cumulative estimated cost stays within the
budget: the returned total never exceeds the budget, no longer prefix fits,
and appending the next record in order would exceed the budget.  Order is
preserved because the result is literally a prefix. -/
theorem window_maximal_on_strict_dates
    (rows : List InventoryRow) (limit : Int) (h0 : 0 ≤ limit)
    (hs : List.Pairwise
      (fun a b => a.date_in_stock < b.date_in_stock) rows) :
    ∃ n, windowRows rows limit = rows.take n
      ∧ (tokSum (rows.take n) : Int) ≤ limit
      ∧ (∀ m, m ≤ rows.length → (tokSum (rows.take m) : Int) ≤ limit → m ≤ n)
      ∧ (n < rows.length → limit < (tokSum (rows.take (n + 1)) : Int)) := by
  induction rows generalizing limit with
  | nil =>
      refine ⟨0, rfl, by simpa [tokSum] using h0, ?_, ?_⟩
      · intro m hm _
        simpa using hm
      · intro h
        simp at h
  | cons r rs ih =>
      obtain ⟨hlt, hs'⟩ := List.pairwise_cons.mp hs
      by_cases hc : (estimated_token_count r : Int) ≤ limit
      · have hw : windowRows (r :: rs) limit
            = r :: windowRows rs (limit - estimated_token_count r) := by
          unfold windowRows
          rw [List.filter_cons_of_pos (by simp [cumulative_tokens_head hlt, hc])]
          congr 1
          apply List.filter_congr
          intro x hx
          rw [cumulative_tokens_cons (le_of_lt (hlt x hx))]
          apply decide_eq_decide.mpr
          push_cast
          omega
        obtain ⟨n, hn1, hn2, hn3, hn4⟩ :=
          ih (limit - estimated_token_count r) (by omega) hs'
        refine ⟨n + 1, ?_, ?_, ?_, ?_⟩
        · rw [hw, hn1, List.take_succ_cons]
        · rw [List.take_succ_cons, tokSum_cons]
          push_cast
          omega
        · intro m hm hsum
          rcases m with _ | m'
          · omega
          · rw [List.take_succ_cons, tokSum_cons] at hsum
            push_cast at hsum
            have hm' : m' ≤ rs.length := by
              simp only [List.length_cons] at hm
              omega
            have := hn3 m' hm' (by omega)
            omega
        · intro hlen
          have h4 := hn4 (by
            simp only [List.length_cons] at hlen
            omega)
          rw [List.take_succ_cons, tokSum_cons]
          push_cast
          omega
      · have hw : windowRows (r :: rs) limit = [] := by
          unfold windowRows
          rw [List.filter_cons_of_neg (by simpa [cumulative_tokens_head hlt] using hc)]
          apply List.filter_eq_nil_iff.mpr
          intro x hx
          rw [cumulative_tokens_cons (le_of_lt (hlt x hx))]
          push_cast
          simp only [decide_eq_true_eq]
          omega
        refine ⟨0, hw, by simpa [tokSum] using h0, ?_, ?_⟩
        · intro m hm hsum
          rcases m with _ | m'
          · exact le_refl 0
          · exfalso
            rw [List.take_succ_cons, tokSum_cons] at hsum
            push_cast at hsum
            omega
        · intro _
          rw [List.take_succ_cons, tokSum_cons]
          simp only [List.take_zero, tokSum, List.map_nil, List.sum_nil]
          push_cast
          omega

/-- A concrete inventory row with the given stocking date and description,
all other textual fields NULL; its estimated token count is the length of
its description divided by 5. -/
def mkRow (d : Int) (descr : Option String) : InventoryRow :=
  { date_in_stock := d, vin := none, stock_number := none, vtype := none,
    year := 0, make := none, model := none, trim := none, style := none,
    exterior_color := none, interior_color := none, certified := false,
    selling_price := 0, fuel_type := none, transmission := none,
    drive_type := none, doors := 0, engine_type := none, features := none,
    packages := none, description := descr, options := none }

/-- Witness for the amended C3 theorem at a concrete strictly-dated list:
two rows of cost 2 each under budget 3 give the maximal prefix of length 1. -/
theorem window_maximal_on_strict_dates_witness :
    ((0 : Int) ≤ 3
      ∧ List.Pairwise (fun a b => a.date_in_stock < b.date_in_stock)
          [mkRow 1 (some ("0123456789")), mkRow 2 (some ("0123456789"))])
    ∧ (∃ n, windowRows
          [mkRow 1 (some ("0123456789")), mkRow 2 (some ("0123456789"))] 3
          = [mkRow 1 (some ("0123456789")),
             mkRow 2 (some ("0123456789"))].take n
        ∧ (tokSum ([mkRow 1 (some ("0123456789")),
             mkRow 2 (some ("0123456789"))].take n) : Int) ≤ 3
        ∧ (∀ m, m ≤ [mkRow 1 (some ("0123456789")),
             mkRow 2 (some ("0123456789"))].length
            → (tokSum ([mkRow 1 (some ("0123456789")),
                mkRow 2 (some ("0123456789"))].take m) : Int) ≤ 3
            → m ≤ n)
        ∧ (n < [mkRow 1 (some ("0123456789")),
              mkRow 2 (some ("0123456789"))].length
            → 3 < (tokSum ([mkRow 1 (some ("0123456789")),
                mkRow 2 (some ("0123456789"))].take (n + 1)) : Int))) :=
  ⟨⟨by norm_num, by decide⟩,
    window_maximal_on_strict_dates _ 3 (by norm_num) (by decide)⟩

/-- C3 counterexample: with a tie in `date_in_stock` the claim fails.  The
rows (date 1, cost 0), (date 2, cost 2), (date 2, cost 2) are listed in
ascending date order, yet with budget 3 the query returns only the first
row, because the RANGE frame gives both date-2 peers the cumulative count
0 + 2 + 2 = 4 > 3; the prefix of length 2 has total cost 2 ≤ 3, so the
returned list is not the maximal prefix and appending the next record would
not exceed the budget. -/
theorem window_ties_not_maximal :
    List.Pairwise (fun a b => a.date_in_stock ≤ b.date_in_stock)
      [mkRow 1 none, mkRow 2 (some ("0123456789")),
       mkRow 2 (some ("0123456789"))]
    ∧ windowRows
        [mkRow 1 none, mkRow 2 (some ("0123456789")),
         mkRow 2 (some ("0123456789"))] 3
        = [mkRow 1 none]
    ∧ (tokSum ([mkRow 1 none, mkRow 2 (some ("0123456789")),
         mkRow 2 (some ("0123456789"))].take 2) : Int) ≤ 3
    ∧ [mkRow 1 none, mkRow 2 (some ("0123456789")),
        mkRow 2 (some ("0123456789"))].take 2
        ≠ [mkRow 1 none] := by
  refine ⟨by decide, by decide, by decide, by decide⟩

/-- Containment of one character list in another, used for the semantics of
an `ILIKE` pattern wrapped in percent signs. -/
def charListContains (needle : List Char) : List Char → Bool
  | [] => needle.isEmpty
  | c :: t => needle.isPrefixOf (c :: t) || charListContains needle t

/-- SQL `col ILIKE %(p)s` where the bound pattern is the Python `f"%{v}%"`:
true when the column is non-NULL and contains `v` case-insensitively —
both sides are case-folded character by character (`v` itself is taken free
of the LIKE wildcard characters; a NULL column never matches). -/
def ilikeContains (col : Option String) (v : String) : Bool :=
  match col with
  | none => false
  | some s =>
      charListContains (v.data.map Char.toLower) (s.data.map Char.toLower)

/-- The dynamic `WHERE` predicates of `search_vehicle_inventory`
(src/rag.py lines 296-355) evaluated on one row: an inactive argument
contributes `TRUE`; an active one contributes the equality / `ILIKE` /
price-range comparison appended to the SQL. -/
def rowMatches (a : InventoryQueryArgs) (r : InventoryRow) : Bool :=
  (if pyTruthyStr a.vin then r.vin == some (a.vin.getD ("")) else true)
  && (if pyTruthyStr a.stock_number then ilikeContains r.stock_number (a.stock_number.getD ("")) else true)
  && (if pyTruthyStr a.vehicle_type then ilikeContains r.vtype (a.vehicle_type.getD ("")) else true)
  && (if pyTruthyInt a.year then r.year == a.year.getD 0 else true)
  && (if pyTruthyStr a.make then ilikeContains r.make (a.make.getD ("")) else true)
  && (if pyTruthyStr a.model then ilikeContains r.model (a.model.getD ("")) else true)
  && (if pyTruthyStr a.trim then ilikeContains r.trim (a.trim.getD ("")) else true)
  && (if pyTruthyStr a.style then ilikeContains r.style (a.style.getD ("")) else true)
  && (if pyTruthyStr a.exterior_color then ilikeContains r.exterior_color (a.exterior_color.getD ("")) else true)
  && (if pyTruthyStr a.interior_color then ilikeContains r.interior_color (a.interior_color.getD ("")) else true)
  && (if a.certified.isSome then r.certified == a.certified.getD false else true)
  && (if pyTruthyRat a.min_price then decide (a.min_price.getD 0 ≤ r.selling_price) else true)
  && (if pyTruthyRat a.max_price then decide (r.selling_price ≤ a.max_price.getD 0) else true)
  && (if pyTruthyStr a.fuel_type then ilikeContains r.fuel_type (a.fuel_type.getD ("")) else true)
  && (if pyTruthyStr a.transmission then ilikeContains r.transmission (a.transmission.getD ("")) else true)
  && (if pyTruthyStr a.drive_type then ilikeContains r.drive_type (a.drive_type.getD ("")) else true)
  && (if pyTruthyInt a.doors then r.doors == a.doors.getD 0 else true)
  && (if pyTruthyStr a.engine_type then ilikeContains r.engine_type (a.engine_type.getD ("")) else true)
  && (if pyTruthyStr a.features then ilikeContains r.features (a.features.getD ("")) else true)
  && (if pyTruthyStr a.packages then ilikeContains r.packages (a.packages.getD ("")) else true)

/-- The data rows returned by `search_vehicle_inventory` on a table whose
rows are listed in ascending `date_in_stock` order: the `filtered` CTE keeps
the matching rows, then the budget cut keeps those whose RANGE-frame
cumulative token count is at most `context_limit`.  When `context_limit` is
`None` (the Python default), `cumulative_tokens <= NULL` is never true and
no row survives. -/
def searchInventoryRows (a : InventoryQueryArgs) (rows : List InventoryRow)
    (context_limit : Option Int) : List InventoryRow :=
  match context_limit with
  | none => []
  | some limit => windowRows (rows.filter (rowMatches a)) limit

/-- C9 counterexample: a zero-budget call on a table holding one row whose
textual columns are all NULL (estimated token count 0) returns that row —
`cumulative_tokens <= 0` holds for it — so budget 0 does not yield the
empty list for all contents of the inventory table. -/
theorem budget_zero_returns_zero_cost_row :
    searchInventoryRows {} [mkRow 0 none] (some 0) = [mkRow 0 none]
    ∧ [mkRow 0 none] ≠ ([] : List InventoryRow) := by
  refine ⟨by decide, by decide⟩

/-- C9 (amended): a zero-budget inventory search returns the empty list (as
a normal result, not an error) provided every *matching* record — every row
passing the dynamic `WHERE` predicates — has positive estimated token
count, which holds whenever each such row carries at least five characters
of measured text.  Non-matching rows are unconstrained, since the
cumulative CTE runs over the `filtered` rows only.  A matching row of
estimated cost 0 is returned even at budget 0. -/
theorem budget_zero_empty_on_positive_costs
    (a : InventoryQueryArgs) (rows : List InventoryRow)
    (hpos : ∀ r ∈ rows.filter (rowMatches a), 1 ≤ estimated_token_count r) :
    searchInventoryRows a rows (some 0) = [] := by
  unfold searchInventoryRows windowRows
  apply List.filter_eq_nil_iff.mpr
  intro x hx
  have h1 := hpos x hx
  have h2 := est_le_cumulative hx
  simp only [decide_eq_true_eq]
  omega

/-- Witness for the amended C9 theorem: a `make = "Toyota"` search at
budget 0 over a table holding a zero-cost row that does not match (make
`Hond`, four characters, no other text) and a matching Toyota row of
estimated cost 3 returns the empty list — the hypothesis constrains the
matching row only, and the zero-cost non-matching row is within the
amended claim. -/
theorem budget_zero_empty_on_positive_costs_witness :
    estimated_token_count { mkRow 0 none with make := some ("Hond") } = 0
    ∧ rowMatches { make := some ("Toyota") }
        { mkRow 0 none with make := some ("Hond") } = false
    ∧ 1 ≤ estimated_token_count
        { mkRow 1 (some ("0123456789")) with make := some ("Toyota") }
    ∧ searchInventoryRows { make := some ("Toyota") }
        [{ mkRow 0 none with make := some ("Hond") },
         { mkRow 1 (some ("0123456789")) with make := some ("Toyota") }]
        (some 0) = [] :=
  ⟨by decide, by decide, by decide,
    budget_zero_empty_on_positive_costs _ _ (by decide)⟩

/-! ## Observable call outcomes (similarity and hybrid search) -/

/-- The observable outcome of one Python method call: a normal return, an
exception escaping to the caller, or the implicit `return None` that follows
a swallowed exception (`except Exception as e: print(...)`). -/
inductive CallOutcome (α : Type) where
  | ok : α → CallOutcome α
  | raised : String → CallOutcome α
  | noneReturned : CallOutcome α
deriving DecidableEq

/-- True when the outcome is an exception escaping to the caller. -/
def CallOutcome.isRaised {α : Type} : CallOutcome α → Bool
  | .raised _ => true
  | _ => false

/-- A langchain `Document`: page content plus metadata (src/rag.py lines
104-107 rebuild them from the fetched rows). -/
structure Document where
  page_content : String
  metadata : List (String × String)
deriving DecidableEq

/-- `PGVectorStore.similarity_search` (src/rag.py lines 81-109).  The
collaborators' behavior for this call is passed explicitly: `storeOut` is
the outcome of the langchain `store.similarity_search` call (the
non-native branch), `embedOut` of `embed_query`, and `dbOut` of executing
the native SQL.  The whole body sits in `try ... except Exception`, whose
handler prints and falls through to an implicit `return None`. -/
def similarity_search (query : String) (filter : List (String × FilterVal))
    (k : Nat) (native : Bool) (storeOut : Except String (List Document))
    (embedOut : Except String (List ℚ))
    (dbOut : Except String (List Document)) : CallOutcome (List Document) :=
  if !native then
    match storeOut with
    | .ok docs => .ok docs
    | .error _ => .noneReturned
  else
    match embedOut with
    | .error _ => .noneReturned
    | .ok _ =>
      match dbOut with
      | .error _ => .noneReturned
      | .ok rows => .ok rows

/-- C7 counterexample: when the embedding provider fails, the native
similarity search prints inside its handler and returns `None` — the
caller receives neither a (possibly empty) result list nor a typed
`RetrievalUnavailable` failure, contradicting the claim. -/
theorem similarity_search_failure_returns_none :
    similarity_search ("q") [] 10 true (Except.ok [])
        (Except.error ("embedding provider down")) (Except.ok [])
      = CallOutcome.noneReturned := rfl

/-- C7 (amended): every embedding-provider or store failure is swallowed by
the blanket handler of `similarity_search`: the caller never sees a raised
error of any kind; it receives the document list on success and `None`
after any collaborator failure. -/
theorem similarity_search_never_raises (query : String)
    (filter : List (String × FilterVal)) (k : Nat) (native : Bool)
    (storeOut : Except String (List Document))
    (embedOut : Except String (List ℚ))
    (dbOut : Except String (List Document)) (msg : String) :
    (similarity_search query filter k native storeOut embedOut dbOut).isRaised
        = false
    ∧ similarity_search query filter k true storeOut (Except.error msg) dbOut
        = CallOutcome.noneReturned
    ∧ similarity_search query filter k false (Except.error msg) embedOut dbOut
        = CallOutcome.noneReturned := by
  refine ⟨?_, rfl, rfl⟩
  cases native <;> cases storeOut <;> cases embedOut <;> cases dbOut <;> rfl

/-- The observable effects and outcome of one `hybrid_search` call:
`effectiveQuery` is the query text actually embedded and searched (`none`
when the call never reached that point), and the two flags record whether
the embedding call and the SQL execution were reached. -/
structure HybridRun where
  outcome : CallOutcome (List Document)
  embedCalled : Bool
  queryExecuted : Bool
  effectiveQuery : Option String
deriving DecidableEq

/-- `PGVectorStore.hybrid_search` (src/rag.py lines 111-158).  Control flow
of the source: the weight check `raise ValueError` comes first, before any
I/O; with `use_entities` the query is replaced by
`" ".join(entities.values())` (`extractOut` carries the values of the
entity dictionary produced by `extract_entities`, or its failure); then the
embedding call and the SQL execution.  The enclosing
`try ... except Exception` turns every raised error — including the
function's own `ValueError` — into `print` plus an implicit
`return None`. -/
def hybrid_search (query : String) (weight : ℚ) (use_entities : Bool)
    (extractOut : Except String (List String))
    (embedOut : Except String (List ℚ))
    (dbOut : Except String (List Document)) : HybridRun :=
  if 0 ≤ weight ∧ weight ≤ 1 then
    match (if use_entities
            then Except.map (fun es => String.intercalate (" ") es) extractOut
            else Except.ok query) with
    | .error _ => ⟨.noneReturned, false, false, none⟩
    | .ok q =>
      match embedOut with
      | .error _ => ⟨.noneReturned, true, false, some q⟩
      | .ok _ =>
        match dbOut with
        | .error _ => ⟨.noneReturned, true, true, some q⟩
        | .ok rows => ⟨.ok rows, true, true, some q⟩
  else ⟨.noneReturned, false, false, none⟩

/-- C5: the weight precondition is indeed checked before any I/O and an
out-of-range weight is never clamped — at weight 2 neither the embedding
call nor the query execution is reached — but the `ValueError` the code
raises is caught by the function's own blanket `except`, so the caller
receives `None` rather than an InvalidWeight-style error. -/
theorem hybrid_search_invalid_weight_swallowed :
    hybrid_search ("q") 2 false (Except.ok []) (Except.ok []) (Except.ok [])
      = ⟨CallOutcome.noneReturned, false, false, none⟩
    ∧ (hybrid_search ("q") 2 false (Except.ok []) (Except.ok [])
        (Except.ok [])).outcome.isRaised = false := by
  constructor
  · unfold hybrid_search
    rw [if_neg (by norm_num)]
  · unfold hybrid_search
    rw [if_neg (by norm_num)]
    rfl

/-- C6 counterexample: with `use_entities` set and entity extraction
yielding no entities, the query becomes `" ".join(...) = ""` — there is no
fallback to the original text — and the search is executed with the empty
query. -/
theorem hybrid_search_empty_entities_empty_query :
    (hybrid_search ("brake pads") (1/2) true (Except.ok []) (Except.ok [])
        (Except.ok [])).effectiveQuery = some ("")
    ∧ (hybrid_search ("brake pads") (1/2) true (Except.ok []) (Except.ok [])
        (Except.ok [])).queryExecuted = true
    ∧ (hybrid_search ("brake pads") (1/2) true (Except.ok []) (Except.ok [])
        (Except.ok [])).effectiveQuery ≠ some ("brake pads") := by
  have hv : (0 : ℚ) ≤ 1/2 ∧ (1 : ℚ)/2 ≤ 1 := by norm_num
  refine ⟨?_, ?_, ?_⟩ <;>
    · unfold hybrid_search
      rw [if_pos hv]
      decide

/-- C6 (amended): with `use_entities` set, the query text is replaced by
the space-joined extracted entity values unconditionally — when extraction
yields no entities the search runs with the empty string, not the original
text.  When extraction raises, the blanket handler swallows the error
before the embedding call and the caller receives `None`; nothing is ever
raised to the caller. -/
theorem hybrid_search_entity_rewrite_behavior (query : String)
    (es : List String) (msg : String) (weight : ℚ)
    (use_entities : Bool) (extractOut : Except String (List String))
    (embedOut : Except String (List ℚ))
    (dbOut : Except String (List Document)) :
    (hybrid_search query (1/2) true (Except.ok es) embedOut
        dbOut).effectiveQuery = some (String.intercalate (" ") es)
    ∧ hybrid_search query (1/2) true (Except.error msg) embedOut dbOut
        = ⟨CallOutcome.noneReturned, false, false, none⟩
    ∧ (hybrid_search query weight use_entities extractOut embedOut
        dbOut).outcome.isRaised = false := by
  have hv : (0 : ℚ) ≤ 1/2 ∧ (1 : ℚ)/2 ≤ 1 := by norm_num
  refine ⟨?_, ?_, ?_⟩
  · unfold hybrid_search
    rw [if_pos hv]
    cases embedOut <;> cases dbOut <;> rfl
  · unfold hybrid_search
    rw [if_pos hv]
    rfl
  · by_cases h : (0 ≤ weight ∧ weight ≤ 1)
    · cases use_entities <;> cases extractOut <;> cases embedOut <;>
        cases dbOut <;> simp [hybrid_search, h, Except.map, CallOutcome.isRaised]
    · simp [hybrid_search, h, CallOutcome.isRaised]

/-- The per-row `hybrid_score` computed by the SQL of `hybrid_search`
(src/rag.py lines 139-140):
`ts_rank_cd * (1 - weight) + (1 - (embedding <-> query)) * weight`, where
`rank` is the raw `ts_rank_cd` statistic and `dist` the raw `<->` distance;
rows are ordered by this score descending. -/
def hybrid_score (weight rank dist : ℚ) : ℚ :=
  rank * (1 - weight) + (1 - dist) * weight

/-- C4: the fusion has the claimed shape
`(1 - w) * textScore + w * (1 - dist)`, but neither component is
normalized: the code uses the raw `ts_rank_cd` statistic and the raw
vector distance.  For a candidate at distance 3 the vector component is
`1 - 3 = -2`, outside any `[0, 1]` scale, and the fused score at
weight 1 is `-2 < 0`. -/
theorem hybrid_score_unnormalized_vector_component :
    hybrid_score 1 0 3 = -2 ∧ hybrid_score 1 0 3 < 0 := by
  constructor
  · norm_num [hybrid_score]
  · norm_num [hybrid_score]

/-! ## Document ingestion (`PGVectorStore.add_documents`, src/rag.py lines 58-63) -/

/-- The observable state of the vector index: the live document under each
id, at most one per id. -/
def DocIndex : Type := String → Option Document

/-- Modelled from the spec: the langchain `PGVector.add_documents(docs,
ids=...)` backend invoked at src/rag.py line 61 is a third-party
collaborator whose code is not part of this repository.  Spec section 6
describes the store interface as "upsert-by-id for documents" and section 3
states that re-adding a document with an existing id overwrites it
(at-most-one-live-copy invariant).  This models that upsert of a single
document under an explicit id. -/
def store_add_document (idx : DocIndex) (id : String) (d : Document) :
    DocIndex :=
  fun key => if key = id then some d else idx key

/-- `PGVectorStore.add_documents` (src/rag.py lines 58-63): for each
document in order, upsert it under `doc.metadata["id"]`; the per-document
`try ... except` logs and skips a document that fails (in particular one
whose metadata lacks the `id` key, where the subscript raises
`KeyError`). -/
def add_documents (idx : DocIndex) (docs : List Document) : DocIndex :=
  docs.foldl (fun acc doc =>
    match doc.metadata.lookup ("id") with
    | some i => store_add_document acc i doc
    | none => acc) idx

/-- C8: adding the same document (carrying an explicit id) twice leaves the
index in the same observable state as adding it once — the second add
overwrites the first under the same id, so at most one live copy per id
ever exists.  Proved against the spec-modelled upsert-by-id store
backend. -/
theorem add_documents_idempotent (idx : DocIndex) (d : Document)
    (i : String) (h : d.metadata.lookup ("id") = some i) :
    add_documents (add_documents idx [d]) [d] = add_documents idx [d] := by
  funext key
  simp only [add_documents, List.foldl_cons, List.foldl_nil, h,
    store_add_document]
  split <;> rfl

/-- Witness for C8 at a concrete document and the empty index. -/
theorem add_documents_idempotent_witness :
    (Document.mk ("hello") ([(("id"), ("doc-1"))])).metadata.lookup ("id")
        = some ("doc-1")
    ∧ add_documents (add_documents (fun _ => none : DocIndex)
          [Document.mk ("hello") ([(("id"), ("doc-1"))])])
          [Document.mk ("hello") ([(("id"), ("doc-1"))])]
        = add_documents (fun _ => none : DocIndex)
          [Document.mk ("hello") ([(("id"), ("doc-1"))])] :=
  ⟨rfl, add_documents_idempotent _ _ _ rfl⟩
